import Mathlib

/-!
Shallow embedding of the Vulkan wrapper code in `src/vulkan/pipeline.rs` and
`akai/src/vulkan/swapchain.rs`.  External effects (the file system, the
shaderc compiler, the Vulkan driver) are modelled as explicit oracle
parameters; panics are modelled as distinguished result constructors;
`u32` arithmetic that can wrap is taken modulo `2^32`.
-/

namespace Kiyo

/-- Modulus of Rust's `u32` arithmetic. -/
def U32MOD : Nat := 4294967296

/-- Numeric value of `vk::Format::R8G8B8A8_UNORM`. -/
def FORMAT_R8G8B8A8_UNORM : Nat := 37

/-- Numeric value of `vk::ColorSpaceKHR::SRGB_NONLINEAR`. -/
def COLOR_SPACE_SRGB_NONLINEAR : Nat := 0

/-- Numeric value of `vk::PresentModeKHR::MAILBOX`. -/
def PRESENT_MODE_MAILBOX : Nat := 1

/-- Numeric value of `vk::PresentModeKHR::FIFO`. -/
def PRESENT_MODE_FIFO : Nat := 2

/-- Bit value of `vk::SurfaceTransformFlagsKHR::IDENTITY`. -/
def SURFACE_TRANSFORM_IDENTITY : Nat := 1

/-- Bit value of `vk::ImageUsageFlags::COLOR_ATTACHMENT`. -/
def IMAGE_USAGE_COLOR_ATTACHMENT : Nat := 16

/-- Numeric value of `vk::SharingMode::EXCLUSIVE`. -/
def SHARING_MODE_EXCLUSIVE : Nat := 0

/-- Bit value of `vk::CompositeAlphaFlagsKHR::OPAQUE`. -/
def COMPOSITE_ALPHA_OPAQUE : Nat := 1

/-- Numeric value of `vk::ImageViewType::TYPE_2D`. -/
def IMAGE_VIEW_TYPE_2D : Nat := 1

/-- Numeric value of `vk::ComponentSwizzle::IDENTITY`. -/
def COMPONENT_SWIZZLE_IDENTITY : Nat := 0

/-- Bit value of `vk::ImageAspectFlags::COLOR`. -/
def IMAGE_ASPECT_COLOR : Nat := 1

/-- Value of Rust's `u32::MAX`. -/
def U32_MAX : Nat := 4294967295

/-! ## Shader pipeline (`src/vulkan/pipeline.rs`) -/

/-- The shaderc shader kinds that `load_shader_code` can select. -/
inductive ShaderKind where
  | Vertex
  | Fragment
  | Compute
deriving DecidableEq, Repr

/-- Character-level embedding of Rust's `str::split` with the
single-character pattern `"."`: the list of `'.'`-separated pieces, in
order, always nonempty (splitting the empty string yields `[[]]`, as
Rust's `"".split(".")` yields `[""]`). -/
def splitOnDot (cs : List Char) : List (List Char) :=
  match cs with
  | [] => [[]]
  | c :: rest =>
    if c = '.' then [] :: splitOnDot rest
    else
      match splitOnDot rest with
      | [] => [[c]]
      | piece :: pieces => (c :: piece) :: pieces

/-- The last component of `source_file.split(".")`; Rust's `split` always
yields at least one piece, so `last()` is always `Some` and the default of
`getLastD` is never reached. -/
def lastDotComponent (s : String) : String :=
  String.mk ((splitOnDot s.data).getLastD [])

/-- The shader-kind selection in `load_shader_code`
(`match source_file.split(".").last()`); `none` stands for the
`panic!("Unknown shader type")` arm. -/
def shaderKindOf (source_file : String) : Option ShaderKind :=
  match lastDotComponent source_file with
  | "vert" => some ShaderKind.Vertex
  | "frag" => some ShaderKind.Fragment
  | "comp" => some ShaderKind.Compute
  | _ => none

/-- Oracle for the external world used by `load_shader_code`: the file
system (`fs::read_to_string`) and the shaderc compiler
(`compile_into_spirv` over source text, shader kind, file name, entry
point, and the macro definitions added to the compile options). -/
structure ShaderEnv where
  readFile : String → Option String
  compileIntoSpirv : String → ShaderKind → String → String →
    List (String × String) → Except String (List Nat)

/-- Result of `load_shader_code`: `ok` is `Ok(binary words)`, `err` is
`Err(PipelineErr::ShaderCompilation(msg))`, and the two `panicked`
constructors are the `panic!("Unknown shader type")` and the
`.expect("Failed to read file: ...")` aborts. -/
inductive LoadShaderResult where
  | ok (words : List Nat)
  | err (msg : String)
  | panickedUnknownShaderType
  | panickedReadFailed (file : String)
deriving DecidableEq, Repr

/-- Shallow embedding of `load_shader_code` from `src/vulkan/pipeline.rs`.
The compile options always carry `("EP", "main")` followed by the caller's
macro definitions, and the entry point passed to shaderc is `"main"`. -/
def load_shader_code (env : ShaderEnv) (source_file : String)
    (defines : List (String × String)) : LoadShaderResult :=
  match shaderKindOf source_file with
  | none => LoadShaderResult.panickedUnknownShaderType
  | some shader_kind =>
    match env.readFile source_file with
    | none => LoadShaderResult.panickedReadFailed source_file
    | some source =>
      match env.compileIntoSpirv source shader_kind source_file "main"
          (("EP", "main") :: defines) with
      | Except.ok result => LoadShaderResult.ok result
      | Except.error error => LoadShaderResult.err error

/-- The `vk::ShaderModuleCreateInfo` built by `create_shader_module`; only
the `code` slice is set by the code. -/
structure ShaderModuleCreateInfo where
  code : List Nat
deriving DecidableEq, Repr

/-- The create info `create_shader_module` builds:
`slice::from_raw_parts(code.as_ptr(), code.len())` reconstructs exactly the
words of the input vector. -/
def shaderModuleCreateInfoFor (code : List Nat) : ShaderModuleCreateInfo :=
  { code := code }

/-- Oracle for `ash::Device::create_shader_module`; `none` stands for a
driver error (which the code turns into a panic via `.expect`). -/
structure DeviceOracle where
  createShaderModule : ShaderModuleCreateInfo → Option Nat

/-- Result of `create_shader_module`: the returned module handle, or the
`.expect("Failed to create shader module")` abort. -/
inductive ShaderModuleResult where
  | ok (handle : Nat)
  | panickedCreateFailed
deriving DecidableEq, Repr

/-- Shallow embedding of `create_shader_module` from
`src/vulkan/pipeline.rs`. -/
def create_shader_module (device : DeviceOracle) (code : List Nat) :
    ShaderModuleResult :=
  let shader_module_create_info := shaderModuleCreateInfoFor code
  match device.createShaderModule shader_module_create_info with
  | some handle => ShaderModuleResult.ok handle
  | none => ShaderModuleResult.panickedCreateFailed

/-! ## Swapchain (`akai/src/vulkan/swapchain.rs`) -/

/-- `vk::Extent2D`. -/
structure Extent2D where
  width : Nat
  height : Nat
deriving DecidableEq, Repr

/-- `vk::SurfaceFormatKHR`. -/
structure SurfaceFormatKHR where
  format : Nat
  color_space : Nat
deriving DecidableEq, Repr

/-- The fields of `vk::SurfaceCapabilitiesKHR` that `Swapchain::new`
reads. -/
structure SurfaceCapabilitiesKHR where
  min_image_count : Nat
  max_image_count : Nat
  supported_transforms : Nat
  current_transform : Nat
  current_extent : Extent2D
deriving DecidableEq, Repr

/-- The surface format `Swapchain::new` searches for. -/
def requiredSurfaceFormat : SurfaceFormatKHR :=
  { format := FORMAT_R8G8B8A8_UNORM
    color_space := COLOR_SPACE_SRGB_NONLINEAR }

/-- The `available_formats.iter().find(...)` call of `Swapchain::new`;
`none` stands for the `.expect("No suitable surface format found.")`
abort. -/
def chooseSurfaceFormat (available_formats : List SurfaceFormatKHR) :
    Option SurfaceFormatKHR :=
  available_formats.find? (fun f => f = requiredSurfaceFormat)

/-- The desired image count computed by `Swapchain::new`
(`min_image_count + 1` in `u32`, clamped by `max_image_count` only when
the latter is nonzero). -/
def desiredImageCount (caps : SurfaceCapabilitiesKHR) : Nat :=
  let d := (caps.min_image_count + 1) % U32MOD
  if caps.max_image_count > 0 ∧ d > caps.max_image_count then
    caps.max_image_count
  else
    d

/-- The pre-transform chosen by `Swapchain::new`
(`supported_transforms.contains(IDENTITY)` on bit flags). -/
def choosePreTransform (caps : SurfaceCapabilitiesKHR) : Nat :=
  if caps.supported_transforms &&& SURFACE_TRANSFORM_IDENTITY =
      SURFACE_TRANSFORM_IDENTITY then
    SURFACE_TRANSFORM_IDENTITY
  else
    caps.current_transform

/-- The present mode chosen by `Swapchain::new` (MAILBOX when available,
else FIFO). -/
def choosePresentMode (present_modes : List Nat) : Nat :=
  (present_modes.find? (fun mode => mode = PRESENT_MODE_MAILBOX)).getD
    PRESENT_MODE_FIFO

/-- The extent chosen by `Swapchain::new` (window extent when the surface
reports `u32::MAX`, else the surface's current extent). -/
def chooseExtent (caps : SurfaceCapabilitiesKHR) (window_extent : Extent2D) :
    Extent2D :=
  if caps.current_extent.width = U32_MAX then window_extent
  else caps.current_extent

/-- The fields of `vk::SwapchainCreateInfoKHR` that `Swapchain::new`
sets. -/
structure SwapchainCreateInfoKHR where
  image_usage : Nat
  image_extent : Extent2D
  image_sharing_mode : Nat
  image_format : Nat
  image_color_space : Nat
  composite_alpha : Nat
  pre_transform : Nat
  present_mode : Nat
  min_image_count : Nat
  surface : Nat
  clipped : Bool
  image_array_layers : Nat
deriving DecidableEq, Repr

/-- The inputs `Swapchain::new` obtains from the surface, the physical
device and the window. -/
structure SwapchainInputs where
  formats : List SurfaceFormatKHR
  capabilities : SurfaceCapabilitiesKHR
  present_modes : List Nat
  window_extent : Extent2D
  surface_handle : Nat
deriving Repr

/-- The pure configuration part of `Swapchain::new`: the
`SwapchainCreateInfoKHR` it builds, or `none` when the required surface
format is absent (the `.expect("No suitable surface format found.")`
abort). -/
def swapchainConfig (inp : SwapchainInputs) : Option SwapchainCreateInfoKHR :=
  match chooseSurfaceFormat inp.formats with
  | none => none
  | some surface_format =>
    some
      { image_usage := IMAGE_USAGE_COLOR_ATTACHMENT
        image_extent := chooseExtent inp.capabilities inp.window_extent
        image_sharing_mode := SHARING_MODE_EXCLUSIVE
        image_format := surface_format.format
        image_color_space := surface_format.color_space
        composite_alpha := COMPOSITE_ALPHA_OPAQUE
        pre_transform := choosePreTransform inp.capabilities
        present_mode := choosePresentMode inp.present_modes
        min_image_count := desiredImageCount inp.capabilities
        surface := inp.surface_handle
        clipped := true
        image_array_layers := 1 }

/-- `vk::ComponentMapping`. -/
structure ComponentMapping where
  r : Nat
  g : Nat
  b : Nat
  a : Nat
deriving DecidableEq, Repr

/-- `vk::ImageSubresourceRange`. -/
structure ImageSubresourceRange where
  aspect_mask : Nat
  base_mip_level : Nat
  level_count : Nat
  base_array_layer : Nat
  layer_count : Nat
deriving DecidableEq, Repr

/-- The fields of `vk::ImageViewCreateInfo` that `Swapchain::new` sets for
each swapchain image. -/
structure ImageViewCreateInfo where
  flags : Nat
  format : Nat
  view_type : Nat
  components : ComponentMapping
  subresource_range : ImageSubresourceRange
  image : Nat
deriving DecidableEq, Repr

/-- The image-view create info built in `Swapchain::new`'s loop for one
swapchain image, given the chosen surface format. -/
def mkImageViewCreateInfo (format : Nat) (image : Nat) : ImageViewCreateInfo :=
  { flags := 0
    format := format
    view_type := IMAGE_VIEW_TYPE_2D
    components :=
      { r := COMPONENT_SWIZZLE_IDENTITY
        g := COMPONENT_SWIZZLE_IDENTITY
        b := COMPONENT_SWIZZLE_IDENTITY
        a := COMPONENT_SWIZZLE_IDENTITY }
    subresource_range :=
      { aspect_mask := IMAGE_ASPECT_COLOR
        base_mip_level := 0
        level_count := 1
        base_array_layer := 0
        layer_count := 1 }
    image := image }

/-- Oracle for the Vulkan driver calls `Swapchain::new` makes:
`create_swapchain`, `get_swapchain_images` and `create_image_view`
(modelled as succeeding; a driver failure panics in the code via
`.unwrap()` and constructs nothing). -/
structure VkDriver where
  create_swapchain : SwapchainCreateInfoKHR → Nat
  get_swapchain_images : Nat → List Nat
  create_image_view : ImageViewCreateInfo → Nat

/-- The fields of the `Swapchain` struct (the `device` and
`swapchain_loader` handles carry no data in the model). -/
structure Swapchain where
  swapchain : Nat
  images : List Nat
  image_views : List Nat
  extent : Extent2D
deriving DecidableEq, Repr

/-- Shallow embedding of `Swapchain::new`; the `Except` error is the
`.expect("No suitable surface format found.")` panic message. -/
def Swapchain.new (drv : VkDriver) (inp : SwapchainInputs) :
    Except String Swapchain :=
  match swapchainConfig inp with
  | none => Except.error "No suitable surface format found."
  | some create_info =>
    let swapchain := drv.create_swapchain create_info
    let images := drv.get_swapchain_images swapchain
    let image_views := images.map fun image =>
      drv.create_image_view (mkImageViewCreateInfo create_info.image_format image)
    Except.ok
      { swapchain := swapchain
        images := images
        image_views := image_views
        extent := create_info.image_extent }

/-- `Swapchain::get_images`. -/
def Swapchain.get_images (s : Swapchain) : List Nat :=
  s.images

/-- `Swapchain::get_image_views`. -/
def Swapchain.get_image_views (s : Swapchain) : List Nat :=
  s.image_views

/-- `Swapchain::get_extent`. -/
def Swapchain.get_extent (s : Swapchain) : Extent2D :=
  s.extent

/-- One Vulkan destroy call issued by `Drop for Swapchain`. -/
inductive DestroyCall where
  | destroyImageView (view : Nat)
  | destroySwapchain (handle : Nat)
deriving DecidableEq, Repr

/-- Shallow embedding of `Drop for Swapchain`: the sequence of destroy
calls it issues, in order. -/
def Swapchain.drop (s : Swapchain) : List DestroyCall :=
  (s.image_views.map fun image_view => DestroyCall.destroyImageView image_view)
    ++ [DestroyCall.destroySwapchain s.swapchain]

/-! ## Concrete oracles used to exercise the definitions -/

/-- A concrete shader environment: every file reads as `"source text"`, and
the compiler succeeds with the words `[3, 7]` unless the source is
`"bad"`. -/
def sampleShaderEnv : ShaderEnv :=
  { readFile := fun _ => some "source text"
    compileIntoSpirv := fun source _ _ _ _ =>
      if source = "bad" then Except.error "boom" else Except.ok [3, 7] }

/-- A concrete shader environment whose file system is empty. -/
def emptyFsShaderEnv : ShaderEnv :=
  { readFile := fun _ => none
    compileIntoSpirv := fun _ _ _ _ _ => Except.ok [] }

/-- A concrete device oracle: the module handle is the length of the code
slice it was given. -/
def sampleDeviceOracle : DeviceOracle :=
  { createShaderModule := fun info => some info.code.length }

/-- A concrete Vulkan driver oracle. -/
def sampleDriver : VkDriver :=
  { create_swapchain := fun _ => 5
    get_swapchain_images := fun _ => [10, 11, 12]
    create_image_view := fun info => info.image + 100 }

/-- Concrete swapchain inputs whose format list contains the required
format. -/
def sampleInputs : SwapchainInputs :=
  { formats := [{ format := 44, color_space := 8 }, requiredSurfaceFormat]
    capabilities :=
      { min_image_count := 2
        max_image_count := 0
        supported_transforms := 1
        current_transform := 1
        current_extent := { width := 640, height := 480 } }
    present_modes := [2]
    window_extent := { width := 800, height := 600 }
    surface_handle := 9 }

/-- The swapchain `Swapchain.new sampleDriver sampleInputs` constructs. -/
def sampleSwapchain : Swapchain :=
  { swapchain := 5
    images := [10, 11, 12]
    image_views := [110, 111, 112]
    extent := { width := 640, height := 480 } }

/-! ## Theorems -/

/-- Claim C1: when the extension is recognized and the file is readable,
`load_shader_code` returns `Ok` with exactly the compiler's SPIR-V words
iff `compile_into_spirv` succeeds, returns
`Err(PipelineErr::ShaderCompilation(m))` with the compiler's error message
iff the compiler errors, and produces no other outcome. -/
theorem load_shader_code_wraps_compiler (env : ShaderEnv) (source_file : String)
    (defines : List (String × String)) (kind : ShaderKind)
    (hkind : shaderKindOf source_file = some kind)
    (source : String) (hread : env.readFile source_file = some source) :
    (∀ words, load_shader_code env source_file defines = LoadShaderResult.ok words ↔
      env.compileIntoSpirv source kind source_file "main" (("EP", "main") :: defines) =
        Except.ok words) ∧
    (∀ msg, load_shader_code env source_file defines = LoadShaderResult.err msg ↔
      env.compileIntoSpirv source kind source_file "main" (("EP", "main") :: defines) =
        Except.error msg) ∧
    ((∃ words, load_shader_code env source_file defines = LoadShaderResult.ok words) ∨
      (∃ msg, load_shader_code env source_file defines = LoadShaderResult.err msg)) := by
  have hrun : load_shader_code env source_file defines =
      match env.compileIntoSpirv source kind source_file "main"
          (("EP", "main") :: defines) with
      | Except.ok result => LoadShaderResult.ok result
      | Except.error error => LoadShaderResult.err error := by
    unfold load_shader_code
    rw [hkind, hread]
  cases hc : env.compileIntoSpirv source kind source_file "main"
      (("EP", "main") :: defines) with
  | ok result =>
    rw [hc] at hrun
    refine ⟨fun words => ?_, fun msg => ?_, Or.inl ⟨result, hrun⟩⟩
    · rw [hrun]
      constructor
      · intro h
        cases h
        rfl
      · intro h
        cases h
        rfl
    · rw [hrun]
      constructor
      · intro h
        cases h
      · intro h
        cases h
  | error e =>
    rw [hc] at hrun
    refine ⟨fun words => ?_, fun msg => ?_, Or.inr ⟨e, hrun⟩⟩
    · rw [hrun]
      constructor
      · intro h
        cases h
      · intro h
        cases h
    · rw [hrun]
      constructor
      · intro h
        cases h
        rfl
      · intro h
        cases h
        rfl

/-- Witness for C1 at a concrete environment, file and macro list. -/
theorem load_shader_code_wraps_compiler_witness :
    load_shader_code sampleShaderEnv "a.vert" [] = LoadShaderResult.ok [3, 7] := by
  exact ((load_shader_code_wraps_compiler sampleShaderEnv "a.vert" []
    ShaderKind.Vertex rfl "source text" rfl).1 [3, 7]).mpr rfl

/-- Claim C4: the shader kind is selected from the last `.`-separated
component of `source_file` (`vert` / `frag` / `comp`); any other last
component makes `load_shader_code` panic with "Unknown shader type"
regardless of the file system, and a recognized extension makes that panic
unreachable. -/
theorem shader_kind_selection (source_file : String) :
    (lastDotComponent source_file = "vert" →
      shaderKindOf source_file = some ShaderKind.Vertex) ∧
    (lastDotComponent source_file = "frag" →
      shaderKindOf source_file = some ShaderKind.Fragment) ∧
    (lastDotComponent source_file = "comp" →
      shaderKindOf source_file = some ShaderKind.Compute) ∧
    (lastDotComponent source_file ≠ "vert" →
      lastDotComponent source_file ≠ "frag" →
      lastDotComponent source_file ≠ "comp" →
      ∀ env defines, load_shader_code env source_file defines =
        LoadShaderResult.panickedUnknownShaderType) ∧
    (shaderKindOf source_file ≠ none →
      ∀ env defines, load_shader_code env source_file defines ≠
        LoadShaderResult.panickedUnknownShaderType) := by
  refine ⟨?_, ?_, ?_, ?_, ?_⟩
  · intro h
    simp [shaderKindOf, h]
  · intro h
    simp [shaderKindOf, h]
  · intro h
    simp [shaderKindOf, h]
  · intro h1 h2 h3 env defines
    have hk : shaderKindOf source_file = none := by
      unfold shaderKindOf
      split <;> simp_all
    unfold load_shader_code
    rw [hk]
  · intro hne env defines
    cases hk : shaderKindOf source_file with
    | none => exact absurd hk hne
    | some kind =>
      simp only [load_shader_code, hk]
      split
      · simp
      · split <;> simp

/-- Witness for C4: a recognized and an unrecognized extension. -/
theorem shader_kind_selection_witness :
    shaderKindOf "shader.vert" = some ShaderKind.Vertex ∧
    load_shader_code sampleShaderEnv "shader.glsl" [] =
      LoadShaderResult.panickedUnknownShaderType := by
  constructor
  · exact (shader_kind_selection "shader.vert").1 (by decide)
  · exact (shader_kind_selection "shader.glsl").2.2.2.1 (by decide) (by decide)
      (by decide) sampleShaderEnv []

/-- Claim C7: `create_shader_module` passes the caller's SPIR-V words to
the driver verbatim (same length, same words) and returns exactly the
handle the driver produces. -/
theorem create_shader_module_verbatim (device : DeviceOracle) (code : List Nat) :
    (shaderModuleCreateInfoFor code).code.length = code.length ∧
    (shaderModuleCreateInfoFor code).code = code ∧
    (∀ handle,
      device.createShaderModule (shaderModuleCreateInfoFor code) = some handle →
      create_shader_module device code = ShaderModuleResult.ok handle) ∧
    (device.createShaderModule (shaderModuleCreateInfoFor code) = none →
      create_shader_module device code = ShaderModuleResult.panickedCreateFailed) := by
  refine ⟨rfl, rfl, ?_, ?_⟩
  · intro handle h
    simp only [create_shader_module]
    rw [h]
  · intro h
    simp only [create_shader_module]
    rw [h]

/-- Witness for C7 at a concrete device oracle and code vector. -/
theorem create_shader_module_verbatim_witness :
    create_shader_module sampleDeviceOracle [1, 2, 3] = ShaderModuleResult.ok 3 :=
  (create_shader_module_verbatim sampleDeviceOracle [1, 2, 3]).2.2.1 3 rfl

/-- The `destroyImageView` constructor is injective. -/
theorem destroyImageView_injective :
    Function.Injective DestroyCall.destroyImageView := by
  intro a b h
  cases h
  rfl

/-- Claim C2: dropping a `Swapchain` destroys exactly the image views in
its `image_views` field (each occurrence once), then destroys its
swapchain handle last, and issues no other destroy call. -/
theorem swapchain_drop_destroys_views_then_swapchain (s : Swapchain) :
    (∀ v, (Swapchain.drop s).count (DestroyCall.destroyImageView v) =
      s.image_views.count v) ∧
    (∀ handle, (Swapchain.drop s).count (DestroyCall.destroySwapchain handle) =
      if handle = s.swapchain then 1 else 0) ∧
    (Swapchain.drop s).getLast? = some (DestroyCall.destroySwapchain s.swapchain) ∧
    (Swapchain.drop s).dropLast =
      s.image_views.map DestroyCall.destroyImageView ∧
    ∀ c ∈ Swapchain.drop s,
      (∃ v ∈ s.image_views, c = DestroyCall.destroyImageView v) ∨
        c = DestroyCall.destroySwapchain s.swapchain := by
  refine ⟨?_, ?_, ?_, ?_, ?_⟩
  · intro v
    simp [Swapchain.drop, List.count_append,
      List.count_map_of_injective _ _ destroyImageView_injective]
  · intro handle
    have hmap : (s.image_views.map DestroyCall.destroyImageView).count
        (DestroyCall.destroySwapchain handle) = 0 := by
      rw [List.count_eq_zero]
      intro hmem
      rcases List.mem_map.mp hmem with ⟨v, -, hv⟩
      cases hv
    by_cases h : handle = s.swapchain
    · subst h
      simp [Swapchain.drop, List.count_append, hmap, List.count_cons]
    · simp [Swapchain.drop, List.count_append, hmap, List.count_cons, h]
  · simp [Swapchain.drop, List.getLast?_concat]
  · simp [Swapchain.drop, List.dropLast_concat]
  · intro c hc
    rcases List.mem_append.mp hc with hview | hlast
    · rcases List.mem_map.mp hview with ⟨v, hvmem, hveq⟩
      exact Or.inl ⟨v, hvmem, hveq.symm⟩
    · rcases List.mem_singleton.mp hlast with rfl
      exact Or.inr rfl

/-- Claim C3: every swapchain built by `Swapchain::new` holds one image
view per image, in the same order, each view created from a 2D color view
info of the chosen surface format with identity swizzle, one mip level and
one array layer; the getters expose exactly those fields. -/
theorem swapchain_new_one_view_per_image (drv : VkDriver) (inp : SwapchainInputs)
    (s : Swapchain) (hnew : Swapchain.new drv inp = Except.ok s) :
    ∃ fmt, chooseSurfaceFormat inp.formats = some fmt ∧
      s.get_image_views.length = s.get_images.length ∧
      (∀ i : Nat, s.get_image_views[i]? = (s.get_images[i]?).map fun image =>
        drv.create_image_view (mkImageViewCreateInfo fmt.format image)) ∧
      ∀ image,
        (mkImageViewCreateInfo fmt.format image).view_type = IMAGE_VIEW_TYPE_2D ∧
        (mkImageViewCreateInfo fmt.format image).format = fmt.format ∧
        (mkImageViewCreateInfo fmt.format image).components =
          { r := COMPONENT_SWIZZLE_IDENTITY
            g := COMPONENT_SWIZZLE_IDENTITY
            b := COMPONENT_SWIZZLE_IDENTITY
            a := COMPONENT_SWIZZLE_IDENTITY } ∧
        (mkImageViewCreateInfo fmt.format image).subresource_range =
          { aspect_mask := IMAGE_ASPECT_COLOR
            base_mip_level := 0
            level_count := 1
            base_array_layer := 0
            layer_count := 1 } ∧
        (mkImageViewCreateInfo fmt.format image).image = image := by
  rcases hf : chooseSurfaceFormat inp.formats with _ | fmt
  · exfalso
    simp [Swapchain.new, swapchainConfig, hf] at hnew
  · simp only [Swapchain.new, swapchainConfig, hf] at hnew
    rw [Except.ok.injEq] at hnew
    subst hnew
    refine ⟨fmt, rfl, ?_, ?_, ?_⟩
    · simp [Swapchain.get_image_views, Swapchain.get_images]
    · intro i
      simp [Swapchain.get_image_views, Swapchain.get_images, List.getElem?_map]
    · intro image
      exact ⟨rfl, rfl, rfl, rfl, rfl⟩

/-- Witness for C3 at a concrete driver and concrete inputs. -/
theorem swapchain_new_one_view_per_image_witness :
    ∃ fmt, chooseSurfaceFormat sampleInputs.formats = some fmt ∧
      sampleSwapchain.get_image_views.length =
        sampleSwapchain.get_images.length ∧
      (∀ i : Nat, sampleSwapchain.get_image_views[i]? =
        (sampleSwapchain.get_images[i]?).map fun image =>
          sampleDriver.create_image_view (mkImageViewCreateInfo fmt.format image)) ∧
      ∀ image,
        (mkImageViewCreateInfo fmt.format image).view_type = IMAGE_VIEW_TYPE_2D ∧
        (mkImageViewCreateInfo fmt.format image).format = fmt.format ∧
        (mkImageViewCreateInfo fmt.format image).components =
          { r := COMPONENT_SWIZZLE_IDENTITY
            g := COMPONENT_SWIZZLE_IDENTITY
            b := COMPONENT_SWIZZLE_IDENTITY
            a := COMPONENT_SWIZZLE_IDENTITY } ∧
        (mkImageViewCreateInfo fmt.format image).subresource_range =
          { aspect_mask := IMAGE_ASPECT_COLOR
            base_mip_level := 0
            level_count := 1
            base_array_layer := 0
            layer_count := 1 } ∧
        (mkImageViewCreateInfo fmt.format image).image = image :=
  swapchain_new_one_view_per_image sampleDriver sampleInputs sampleSwapchain rfl

/-- The format search fails exactly when the required format is absent. -/
theorem chooseSurfaceFormat_eq_none_iff (l : List SurfaceFormatKHR) :
    chooseSurfaceFormat l = none ↔ requiredSurfaceFormat ∉ l := by
  rw [chooseSurfaceFormat, List.find?_eq_none]
  constructor
  · intro h hmem
    have hx := h _ hmem
    simp at hx
  · intro h x hx
    simp only [decide_eq_true_eq]
    intro he
    exact h (he ▸ hx)

/-- A successful format search returns the required format itself. -/
theorem chooseSurfaceFormat_eq_some (l : List SurfaceFormatKHR)
    (f : SurfaceFormatKHR) (h : chooseSurfaceFormat l = some f) :
    f = requiredSurfaceFormat := by
  have := List.find?_some h
  simpa using this

/-- When the required format is present, the search finds it. -/
theorem chooseSurfaceFormat_of_mem (l : List SurfaceFormatKHR)
    (h : requiredSurfaceFormat ∈ l) :
    chooseSurfaceFormat l = some requiredSurfaceFormat := by
  rcases hf : chooseSurfaceFormat l with _ | f
  · exact absurd h ((chooseSurfaceFormat_eq_none_iff l).mp hf)
  · rw [chooseSurfaceFormat_eq_some l f hf]

/-- Claim C5: `Swapchain::new` aborts with "No suitable surface format
found." exactly when the pair (R8G8B8A8_UNORM, SRGB_NONLINEAR) is absent
from the surface's format list; when it is present, that format and color
space are the ones in the swapchain create info and in every image-view
create info. -/
theorem surface_format_selection (drv : VkDriver) (inp : SwapchainInputs) :
    (requiredSurfaceFormat ∉ inp.formats →
      Swapchain.new drv inp = Except.error "No suitable surface format found.") ∧
    (requiredSurfaceFormat ∈ inp.formats →
      ∃ ci, swapchainConfig inp = some ci ∧
        ci.image_format = FORMAT_R8G8B8A8_UNORM ∧
        ci.image_color_space = COLOR_SPACE_SRGB_NONLINEAR ∧
        ∃ s, Swapchain.new drv inp = Except.ok s ∧
          s.image_views = s.images.map fun image =>
            drv.create_image_view
              (mkImageViewCreateInfo FORMAT_R8G8B8A8_UNORM image)) := by
  constructor
  · intro hmem
    have hf : chooseSurfaceFormat inp.formats = none :=
      (chooseSurfaceFormat_eq_none_iff inp.formats).mpr hmem
    simp [Swapchain.new, swapchainConfig, hf]
  · intro hmem
    have hf := chooseSurfaceFormat_of_mem inp.formats hmem
    unfold Swapchain.new swapchainConfig
    rw [hf]
    exact ⟨_, rfl, rfl, rfl, _, rfl, rfl⟩

/-- Witness for C5 at a concrete driver and inputs containing the required
format. -/
theorem surface_format_selection_witness :
    ∃ ci, swapchainConfig sampleInputs = some ci ∧
      ci.image_format = FORMAT_R8G8B8A8_UNORM ∧
      ci.image_color_space = COLOR_SPACE_SRGB_NONLINEAR ∧
      ∃ s, Swapchain.new sampleDriver sampleInputs = Except.ok s ∧
        s.image_views = s.images.map fun image =>
          sampleDriver.create_image_view
            (mkImageViewCreateInfo FORMAT_R8G8B8A8_UNORM image) :=
  (surface_format_selection sampleDriver sampleInputs).2 (by decide)

/-- Claim C6: the requested minimum image count is `min_image_count + 1`,
clamped to `max_image_count` only when the latter is nonzero and exceeded;
when `max_image_count` is zero no clamp applies.  The hypothesis rules out
`u32` wraparound of `min_image_count + 1`. -/
theorem desired_image_count_rule (caps : SurfaceCapabilitiesKHR)
    (hsmall : caps.min_image_count + 1 < U32MOD) :
    (caps.max_image_count > 0 → caps.min_image_count + 1 > caps.max_image_count →
      desiredImageCount caps = caps.max_image_count) ∧
    (caps.max_image_count > 0 → caps.min_image_count + 1 ≤ caps.max_image_count →
      desiredImageCount caps = caps.min_image_count + 1) ∧
    (caps.max_image_count = 0 →
      desiredImageCount caps = caps.min_image_count + 1) ∧
    (∀ inp ci, inp.capabilities = caps → swapchainConfig inp = some ci →
      ci.min_image_count = desiredImageCount caps) := by
  have hmod : (caps.min_image_count + 1) % U32MOD = caps.min_image_count + 1 :=
    Nat.mod_eq_of_lt hsmall
  refine ⟨?_, ?_, ?_, ?_⟩
  · intro h1 h2
    simp only [desiredImageCount]
    rw [hmod, if_pos ⟨h1, h2⟩]
  · intro h1 h2
    have hcond : ¬(caps.max_image_count > 0 ∧
        caps.min_image_count + 1 > caps.max_image_count) := by omega
    simp only [desiredImageCount]
    rw [hmod, if_neg hcond]
  · intro h0
    have hcond : ¬(caps.max_image_count > 0 ∧
        caps.min_image_count + 1 > caps.max_image_count) := by omega
    simp only [desiredImageCount]
    rw [hmod, if_neg hcond]
  · intro inp ci hcaps hcfg
    unfold swapchainConfig at hcfg
    rcases hf : chooseSurfaceFormat inp.formats with _ | fmt
    · rw [hf] at hcfg
      cases hcfg
    · rw [hf] at hcfg
      cases hcfg
      simp [hcaps]

/-- Witness for C6 at concrete capabilities with `max_image_count = 0`. -/
theorem desired_image_count_rule_witness :
    desiredImageCount sampleInputs.capabilities =
      sampleInputs.capabilities.min_image_count + 1 :=
  (desired_image_count_rule sampleInputs.capabilities (by decide)).2.2.1 rfl

/-- Claim C8: the wrapper logic is deterministic: equal surface formats,
capabilities, present modes and window extent yield equal computed
swapchain configuration components, and `load_shader_code` yields equal
results for equal file contents, equal compilers and equal macro lists. -/
theorem wrapper_determinism :
    (∀ inp1 inp2 : SwapchainInputs,
      inp1.formats = inp2.formats →
      inp1.capabilities = inp2.capabilities →
      inp1.present_modes = inp2.present_modes →
      inp1.window_extent = inp2.window_extent →
      chooseSurfaceFormat inp1.formats = chooseSurfaceFormat inp2.formats ∧
      desiredImageCount inp1.capabilities = desiredImageCount inp2.capabilities ∧
      choosePreTransform inp1.capabilities = choosePreTransform inp2.capabilities ∧
      choosePresentMode inp1.present_modes = choosePresentMode inp2.present_modes ∧
      chooseExtent inp1.capabilities inp1.window_extent =
        chooseExtent inp2.capabilities inp2.window_extent) ∧
    ∀ env1 env2 : ShaderEnv, ∀ source_file defines,
      env1.readFile source_file = env2.readFile source_file →
      env1.compileIntoSpirv = env2.compileIntoSpirv →
      load_shader_code env1 source_file defines =
        load_shader_code env2 source_file defines := by
  constructor
  · intro inp1 inp2 hformats hcaps hmodes hext
    rw [hformats, hcaps, hmodes, hext]
    exact ⟨rfl, rfl, rfl, rfl, rfl⟩
  · intro env1 env2 source_file defines hread hcompile
    unfold load_shader_code
    rw [hread, hcompile]

/-- Witness for C8 at equal concrete inputs. -/
theorem wrapper_determinism_witness :
    chooseSurfaceFormat sampleInputs.formats =
      chooseSurfaceFormat sampleInputs.formats ∧
    load_shader_code sampleShaderEnv "a.vert" [] =
      load_shader_code sampleShaderEnv "a.vert" [] :=
  ⟨(wrapper_determinism.1 sampleInputs sampleInputs rfl rfl rfl rfl).1,
    wrapper_determinism.2 sampleShaderEnv sampleShaderEnv "a.vert" [] rfl rfl⟩

end Kiyo
